import Mathlib

/-!
Shallow embedding of the DataNiaga ingestion-validation pipeline
(the `validateFile`, `detectDelimiter` and `validateDataStructure`
functions of the upload page), together with proofs of the spec's
claims about it.

Conventions of the embedding:
* JavaScript strings are Lean `String`s; cell values that may be
  absent from a parsed record are `Option String` (`none` models a
  missing key, i.e. `undefined`).
* JavaScript numbers are modelled exactly: `parseFloat` returns an
  exact decimal value (or NaN / signed infinity).  IEEE-754 rounding
  is not modelled; it is irrelevant for the values the claims concern.
* Host `Date` parsing (`new Date(s)`) is modelled for the string
  shapes that can reach it in this code (see `jsDateValid`).
-/

namespace DataNiaga

/-- Whitespace characters recognised by JS `trim` and skipped by
`parseFloat` (the ASCII ones; the data this pipeline sees is ASCII). -/
def isJsSpace (c : Char) : Bool :=
  c == ' ' || c == '\t' || c == '\n' || c == '\x0d' || c == '\x0b' || c == '\x0c'

/-- Model of JS `String.prototype.trim` on the character list. -/
def jsTrimList (l : List Char) : List Char :=
  ((l.dropWhile isJsSpace).reverse.dropWhile isJsSpace).reverse

/-- Model of JS `String.prototype.trim`. -/
def jsTrim (s : String) : String :=
  ⟨jsTrimList s.data⟩

/-- Numeric value of a list of decimal digit characters (most
significant first), as read left to right. -/
def digitsToNat (ds : List Char) : ℕ :=
  ds.foldl (fun a c => a * 10 + (c.toNat - 48)) 0

/-- Exact decimal value `m * 10 ^ e`.  A decimal literal is kept in
this form instead of a rational so that all computations stay
kernel-reducible; two representations of the same value are only
compared through the predicates below, never by raw equality. -/
structure Dec where
  m : ℤ
  e : ℤ
deriving DecidableEq

/-- Result of JS `parseFloat`: NaN, a signed infinity, or a finite
value (kept exact; IEEE-754 rounding is not modelled). -/
inductive JsNumber where
  | nan : JsNumber
  | posInf : JsNumber
  | negInf : JsNumber
  | num : Dec → JsNumber
deriving DecidableEq

/-- Parse the `SignedInteger` part of a JS exponent: optional sign
followed by at least one digit; `none` when no digit follows. -/
def parseSignedInt (l : List Char) : Option ℤ :=
  match l with
  | '+' :: t =>
      if (t.takeWhile Char.isDigit).isEmpty then none
      else some (digitsToNat (t.takeWhile Char.isDigit) : ℤ)
  | '-' :: t =>
      if (t.takeWhile Char.isDigit).isEmpty then none
      else some (-(digitsToNat (t.takeWhile Char.isDigit) : ℤ))
  | _ =>
      if (l.takeWhile Char.isDigit).isEmpty then none
      else some (digitsToNat (l.takeWhile Char.isDigit) : ℤ)

/-- Parse an optional JS `ExponentPart` (`e`/`E` then a signed
integer); `none` when the next characters do not form one. -/
def parseExponent (l : List Char) : Option ℤ :=
  match l with
  | 'e' :: t => parseSignedInt t
  | 'E' :: t => parseSignedInt t
  | _ => none

/-- Parse the longest `StrUnsignedDecimalLiteral` prefix after the
optional sign: `Digits [. Digits] [Exponent]` or `. Digits [Exponent]`;
`none` when no digit is found (which `parseFloat` reports as NaN). -/
def parseDecimalBody (l : List Char) : Option Dec :=
  let intDigits := l.takeWhile Char.isDigit
  let rest := l.dropWhile Char.isDigit
  let mantissa : Option (List Char × List Char) :=
    match rest with
    | '.' :: t =>
        if intDigits.isEmpty && (t.takeWhile Char.isDigit).isEmpty then none
        else some (t.takeWhile Char.isDigit, t.dropWhile Char.isDigit)
    | _ => if intDigits.isEmpty then none else some ([], rest)
  match mantissa with
  | none => none
  | some (fracDigits, rest2) =>
      let m : ℤ :=
        (digitsToNat intDigits * 10 ^ fracDigits.length + digitsToNat fracDigits : ℕ)
      match parseExponent rest2 with
      | none => some ⟨m, -(fracDigits.length : ℤ)⟩
      | some e => some ⟨m, e - (fracDigits.length : ℤ)⟩

/-- Parse the part of a `parseFloat` argument after the optional sign:
either the literal word `Infinity` or a decimal literal. -/
def parseUnsigned (l : List Char) (neg : Bool) : JsNumber :=
  if l.take 8 = "Infinity".data then
    if neg then JsNumber.negInf else JsNumber.posInf
  else
    match parseDecimalBody l with
    | none => JsNumber.nan
    | some d => JsNumber.num (if neg then ⟨-d.m, d.e⟩ else d)

/-- Model of JS `parseFloat`: skip leading whitespace, read an optional
sign, then convert the longest valid numeric-literal prefix; NaN when
no such prefix exists.  Values are kept exact. -/
def jsParseFloat (s : String) : JsNumber :=
  match s.data.dropWhile isJsSpace with
  | '+' :: t => parseUnsigned t false
  | '-' :: t => parseUnsigned t true
  | l => parseUnsigned l false

/-- Model of JS `isNaN(x)` for a `parseFloat` result. -/
def jsIsNaN : JsNumber → Bool
  | JsNumber.nan => true
  | _ => false

/-- Model of the JS comparison `x <= 0` for a `parseFloat` result
(false on NaN, which never reaches this comparison in the code).
`m * 10 ^ e ≤ 0` holds exactly when `m ≤ 0`. -/
def jsLeZero : JsNumber → Bool
  | JsNumber.nan => false
  | JsNumber.posInf => false
  | JsNumber.negInf => true
  | JsNumber.num d => decide (d.m ≤ 0)

/-- Model of JS `Number.isInteger(x)`: true exactly on finite values
with zero fractional part.  `m * 10 ^ e` is an integer exactly when
`e ≥ 0` or `10 ^ (-e)` divides `m`. -/
def jsIsInteger : JsNumber → Bool
  | JsNumber.num d =>
      if 0 ≤ d.e then true else decide (d.m % (10 : ℤ) ^ d.e.natAbs = 0)
  | _ => false

/-! ### File gatekeeper (`validateFile`) -/

/-- ASCII lower-casing of one character, as JS `toLowerCase` acts on
the ASCII range (file names in the accepted set are ASCII). -/
def asciiLower (c : Char) : Char :=
  if 'A' ≤ c ∧ c ≤ 'Z' then Char.ofNat (c.toNat + 32) else c

/-- Model of JS `String.prototype.toLowerCase` on ASCII strings. -/
def toLowerStr (s : String) : String :=
  ⟨s.data.map asciiLower⟩

/-- Index of the last `'.'` in a character list, as returned by JS
`lastIndexOf('.')`; `none` models the JS result `-1`. -/
def lastDotIdx (l : List Char) : Option ℕ :=
  match l.reverse.findIdx? (· == '.') with
  | none => none
  | some k => some (l.length - 1 - k)

/-- Model of `file.name.toLowerCase().slice(file.name.lastIndexOf('.'))`.  When
the name has no dot, `lastIndexOf` yields `-1` and `slice(-1)` keeps
only the final character (the empty string for an empty name). -/
def fileExtension (name : String) : String :=
  let lower := (toLowerStr name).data
  match lastDotIdx name.data with
  | some i => ⟨lower.drop i⟩
  | none => ⟨lower.drop (lower.length - 1)⟩

def validExtensions : List String := [".csv", ".xlsx", ".xls"]

/-- Outcome of the file gatekeeper; each rejection stands for the
corresponding `setValidationError` message followed by `return false`. -/
inductive FileCheck where
  | unsupportedFormat : FileCheck
  | emptyFile : FileCheck
  | fileTooLarge : FileCheck
  | ok : FileCheck
deriving DecidableEq

/-- The `validateFile` gatekeeper: extension test, then byte length
zero, then the 50 MB ceiling, in that order. -/
def validateFile (name : String) (size : ℕ) : FileCheck :=
  let extension := fileExtension name
  if extension ∉ validExtensions then FileCheck.unsupportedFormat
  else if size = 0 then FileCheck.emptyFile
  else if size > 50 * 1024 * 1024 then FileCheck.fileTooLarge
  else FileCheck.ok

/-! ### Delimiter inference (`detectDelimiter`) -/

/-- Model of `text.split('\n')[0]`: everything before the first newline. -/
def firstLine (text : String) : String :=
  ⟨text.data.takeWhile (· ≠ '\n')⟩

/-- The `detectDelimiter` heuristic: count commas, semicolons and tabs
in the first line; semicolon or tab wins only by strict majority over
both rivals, comma is the fallback. -/
def detectDelimiter (text : String) : Char :=
  let fl := (firstLine text).data
  let commaCount := fl.count ','
  let semicolonCount := fl.count ';'
  let tabCount := fl.count '\t'
  if semicolonCount > commaCount ∧ semicolonCount > tabCount then ';'
  else if tabCount > commaCount ∧ tabCount > semicolonCount then '\t'
  else ','

/-! ### Data model of `validateDataStructure` -/

/-- A parsed record restricted to the five columns the validator reads;
`none` models a key absent from the record object. -/
structure ParsedRecord where
  InvoiceNo : Option String
  InvoiceDate : Option String
  PULAU : Option String
  PRODUCT_CATEGORY : Option String
  Quantity : Option String
deriving DecidableEq

structure ValidationError where
  field : String
  rowNumber : ℕ
  value : String
  reason : String
deriving DecidableEq

structure DataStats where
  totalRows : ℕ
  validRows : ℕ
deriving DecidableEq

structure DataValidationResult where
  isValid : Bool
  errors : List ValidationError
  warnings : List String
  stats : DataStats
deriving DecidableEq

def REQUIRED_COLUMNS : List String :=
  ["InvoiceNo", "InvoiceDate", "PULAU", "PRODUCT_CATEGORY", "Quantity"]

/-- Key-presence test `col in firstRow` for the five relevant keys. -/
def hasCol (r : ParsedRecord) (col : String) : Bool :=
  if col = "InvoiceNo" then r.InvoiceNo.isSome
  else if col = "InvoiceDate" then r.InvoiceDate.isSome
  else if col = "PULAU" then r.PULAU.isSome
  else if col = "PRODUCT_CATEGORY" then r.PRODUCT_CATEGORY.isSome
  else if col = "Quantity" then r.Quantity.isSome
  else false

/-- Computation `REQUIRED_COLUMNS.filter(col => !(col in firstRow))`. -/
def missingColumns (r : ParsedRecord) : List String :=
  REQUIRED_COLUMNS.filter (fun col => !(hasCol r col))

/-- The emptiness test `!row.X || row.X.trim() === ''` (a missing key
and the empty string are both falsy). -/
def cellEmpty : Option String → Bool
  | none => true
  | some s => s == "" || jsTrim s == ""

/-- Fallback `row.X || '(kosong)'`: the sentinel shown for a falsy cell. -/
def cellOrKosong : Option String → String
  | none => "(kosong)"
  | some s => if s == "" then "(kosong)" else s

/-! ### Per-field validators -/

/-- The date regex `/^\d{4}-\d{2}-\d{2}$|^\d{2}\/\d{2}\/\d{4}$/`:
exact full-string match of either anchored alternative (both have
length 10). -/
def dateRegexTest (s : String) : Bool :=
  match s.data with
  | [a, b, c, d, e, f, g, h, i, j] =>
      (a.isDigit && b.isDigit && c.isDigit && d.isDigit && e == '-' &&
        f.isDigit && g.isDigit && h == '-' && i.isDigit && j.isDigit) ||
      (a.isDigit && b.isDigit && c == '/' && d.isDigit && e.isDigit &&
        f == '/' && g.isDigit && h.isDigit && i.isDigit && j.isDigit)
  | _ => false

def isLeap (y : ℕ) : Bool :=
  (y % 4 == 0 && y % 100 != 0) || (y % 400 == 0)

def daysInMonth (y m : ℕ) : ℕ :=
  if m = 2 then (if isLeap y then 29 else 28)
  else if m = 4 ∨ m = 6 ∨ m = 9 ∨ m = 11 then 30
  else 31

/-- Model of `!isNaN(new Date(s).getTime())` for the two string shapes
that can reach this call (the preceding regex guarantees one of them,
up to surrounding whitespace, which the host parser tolerates).
Following the ECMAScript hosts this code runs on (V8, SpiderMonkey,
JavaScriptCore):
* `YYYY-MM-DD` is parsed as an ISO date and is valid exactly when it
  is a real calendar date (month 1..12, day within the month);
* `A/B/YYYY` goes to the legacy parser, which reads the FIRST
  component as the month and the second as the day, accepting month
  1..12 and day 1..31 (day overflow past the month length rolls over
  instead of failing).  A `DD/MM/YYYY` value with `DD > 12` is
  therefore an Invalid Date. -/
def jsDateValid (s : String) : Bool :=
  match (jsTrim s).data with
  | [a, b, c, d, '-', e, f, '-', g, h] =>
      let y := digitsToNat [a, b, c, d]
      let m := digitsToNat [e, f]
      let dd := digitsToNat [g, h]
      decide (1 ≤ m ∧ m ≤ 12 ∧ 1 ≤ dd ∧ dd ≤ daysInMonth y m)
  | [a, b, '/', c, d, '/', _, _, _, _] =>
      let mo := digitsToNat [a, b]
      let dd := digitsToNat [c, d]
      decide (1 ≤ mo ∧ mo ≤ 12 ∧ 1 ≤ dd ∧ dd ≤ 31)
  | _ => false

def invoiceNoErrors (o : Option String) (rowNum : ℕ) : List ValidationError :=
  if cellEmpty o then
    [⟨"InvoiceNo", rowNum, cellOrKosong o, "Nomor faktur tidak boleh kosong"⟩]
  else []

def invoiceDateErrors (o : Option String) (rowNum : ℕ) : List ValidationError :=
  if cellEmpty o then
    [⟨"InvoiceDate", rowNum, cellOrKosong o, "Tanggal faktur tidak boleh kosong"⟩]
  else
    let s := o.getD ""
    if ¬ dateRegexTest (jsTrim s) then
      [⟨"InvoiceDate", rowNum, s, "Format tanggal salah. Gunakan YYYY-MM-DD atau DD/MM/YYYY"⟩]
    else if ¬ jsDateValid s then
      [⟨"InvoiceDate", rowNum, s, "Tanggal tidak valid (periksa hari/bulan/tahun)"⟩]
    else []

def pulauErrors (o : Option String) (rowNum : ℕ) : List ValidationError :=
  if cellEmpty o then
    [⟨"PULAU", rowNum, cellOrKosong o, "Nama wilayah/pulau tidak boleh kosong"⟩]
  else []

def productCategoryErrors (o : Option String) (rowNum : ℕ) : List ValidationError :=
  if cellEmpty o then
    [⟨"PRODUCT_CATEGORY", rowNum, cellOrKosong o, "Kategori produk tidak boleh kosong"⟩]
  else []

def quantityErrors (o : Option String) (rowNum : ℕ) : List ValidationError :=
  if cellEmpty o then
    [⟨"Quantity", rowNum, cellOrKosong o, "Jumlah produk tidak boleh kosong"⟩]
  else
    let s := o.getD ""
    let qty := jsParseFloat s
    if jsIsNaN qty then
      [⟨"Quantity", rowNum, s, "Quantity harus berupa angka"⟩]
    else if jsLeZero qty then
      [⟨"Quantity", rowNum, s, "Quantity harus lebih besar dari 0"⟩]
    else if ¬ jsIsInteger qty then
      [⟨"Quantity", rowNum, s, "Quantity harus berupa angka bulat (tidak ada desimal)"⟩]
    else []

/-- The body of `data.forEach((row, index) => ...)` for one row: the
errors pushed for it, in the order the five field checks run.  The
source's `rowValid` flag is false exactly when this list is nonempty. -/
def rowErrors (r : ParsedRecord) (rowNum : ℕ) : List ValidationError :=
  invoiceNoErrors r.InvoiceNo rowNum ++
  invoiceDateErrors r.InvoiceDate rowNum ++
  pulauErrors r.PULAU rowNum ++
  productCategoryErrors r.PRODUCT_CATEGORY rowNum ++
  quantityErrors r.Quantity rowNum

/-- Functional rendering of the `forEach` loop: rows at 0-based offset
`i, i+1, ...` get row numbers `i+2, i+3, ...` (`+1` for the header,
`+1` for 1-based indexing); returns the accumulated error list and the
`validRows` counter. -/
def scanRows : List ParsedRecord → ℕ → List ValidationError × ℕ
  | [], _ => ([], 0)
  | r :: rest, i =>
      let errs := rowErrors r (i + 2)
      let tail := scanRows rest (i + 1)
      (errs ++ tail.1, (if errs = [] then 1 else 0) + tail.2)

/-- The `validateDataStructure` function.  Note that the source
declares a `warnings` array and returns it, but never appends to it:
every result carries `warnings = []`. -/
def validateDataStructure (data : List ParsedRecord) : DataValidationResult :=
  match data with
  | [] =>
      ⟨false,
       [⟨"general", 0, "", "Data kosong. Tidak ada baris transaksi ditemukan."⟩],
       [], ⟨0, 0⟩⟩
  | firstRow :: _ =>
      if missingColumns firstRow ≠ [] then
        ⟨false,
         [⟨"header", 1, String.intercalate ", " (missingColumns firstRow),
           "Kolom wajib tidak ditemukan: " ++ String.intercalate ", " (missingColumns firstRow)⟩],
         [], ⟨data.length, 0⟩⟩
      else
        let scanned := scanRows data 0
        ⟨scanned.1.length == 0, scanned.1, [], ⟨data.length, scanned.2⟩⟩

/-- Position of a field in the declaration order the row validator
follows (InvoiceNo, InvoiceDate, PULAU, PRODUCT_CATEGORY, Quantity);
used to state the error-ordering property. -/
def fieldIdx (f : String) : ℕ :=
  if f = "InvoiceNo" then 0
  else if f = "InvoiceDate" then 1
  else if f = "PULAU" then 2
  else if f = "PRODUCT_CATEGORY" then 3
  else if f = "Quantity" then 4
  else 5

/-! ### Helper lemmas -/

lemma scanRows_fst (l : List ParsedRecord) (i : ℕ) :
    (scanRows l i).1 = ((l.enumFrom i).map (fun p => rowErrors p.2 (p.1 + 2))).flatten := by
  induction l generalizing i with
  | nil => rfl
  | cons r rest ih => simp [scanRows, List.enumFrom, ih]

lemma scanRows_snd (l : List ParsedRecord) (i : ℕ) :
    (scanRows l i).2 =
      (l.enumFrom i).countP (fun p => decide (rowErrors p.2 (p.1 + 2) = [])) := by
  induction l generalizing i with
  | nil => rfl
  | cons r rest ih =>
      simp only [scanRows, List.enumFrom, List.countP_cons, ih]
      by_cases h : rowErrors r (i + 2) = [] <;> simp [h] <;> omega

lemma scanRows_snd_le (l : List ParsedRecord) (i : ℕ) :
    (scanRows l i).2 ≤ l.length := by
  induction l generalizing i with
  | nil => exact Nat.le_refl 0
  | cons r rest ih =>
      simp only [scanRows, List.length_cons]
      have := ih (i + 1)
      split_ifs <;> omega

lemma mem_invoiceNoErrors {e : ValidationError} {o : Option String} {n : ℕ}
    (h : e ∈ invoiceNoErrors o n) :
    e.field = "InvoiceNo" ∧ e.reason = "Nomor faktur tidak boleh kosong" := by
  unfold invoiceNoErrors at h
  split_ifs at h <;> simp_all

lemma mem_invoiceDateErrors {e : ValidationError} {o : Option String} {n : ℕ}
    (h : e ∈ invoiceDateErrors o n) : e.field = "InvoiceDate" := by
  unfold invoiceDateErrors at h
  split at h
  · simp_all
  · dsimp only at h
    split at h
    · simp_all
    · split at h <;> simp_all

lemma mem_pulauErrors {e : ValidationError} {o : Option String} {n : ℕ}
    (h : e ∈ pulauErrors o n) : e.field = "PULAU" := by
  unfold pulauErrors at h
  split_ifs at h <;> simp_all

lemma mem_productCategoryErrors {e : ValidationError} {o : Option String} {n : ℕ}
    (h : e ∈ productCategoryErrors o n) : e.field = "PRODUCT_CATEGORY" := by
  unfold productCategoryErrors at h
  split_ifs at h <;> simp_all

lemma mem_quantityErrors {e : ValidationError} {o : Option String} {n : ℕ}
    (h : e ∈ quantityErrors o n) : e.field = "Quantity" := by
  unfold quantityErrors at h
  split at h
  · simp_all
  · dsimp only at h
    split at h
    · simp_all
    · split at h
      · simp_all
      · split at h <;> simp_all

/-! ### Claim theorems -/

/-- C7: delimiter inference counts commas, semicolons and tabs in the
first line only, returns the semicolon exactly when its count strictly
exceeds both the comma and the tab counts, the tab exactly when its
count strictly exceeds both the comma and the semicolon counts, and
the comma in every other case (ties and all-zero included); being a
total function it has no failure mode. -/
theorem detectDelimiter_policy (text : String) :
    (detectDelimiter text = ';' ↔
      ((firstLine text).data.count ';' > (firstLine text).data.count ',' ∧
       (firstLine text).data.count ';' > (firstLine text).data.count '\t')) ∧
    (detectDelimiter text = '\t' ↔
      ((firstLine text).data.count '\t' > (firstLine text).data.count ',' ∧
       (firstLine text).data.count '\t' > (firstLine text).data.count ';')) ∧
    (detectDelimiter text = ',' ↔
      (¬ ((firstLine text).data.count ';' > (firstLine text).data.count ',' ∧
          (firstLine text).data.count ';' > (firstLine text).data.count '\t') ∧
       ¬ ((firstLine text).data.count '\t' > (firstLine text).data.count ',' ∧
          (firstLine text).data.count '\t' > (firstLine text).data.count ';'))) := by
  unfold detectDelimiter
  dsimp only
  split_ifs with h1 h2
  · refine ⟨⟨fun _ => h1, fun _ => rfl⟩, ⟨fun hc => ?_, fun hc => ?_⟩,
      ⟨fun hc => ?_, fun hc => ?_⟩⟩
    · exact absurd hc (by decide)
    · omega
    · exact absurd hc (by decide)
    · exact absurd h1 hc.1
  · refine ⟨⟨fun hc => ?_, fun hc => ?_⟩, ⟨fun _ => h2, fun _ => rfl⟩,
      ⟨fun hc => ?_, fun hc => ?_⟩⟩
    · exact absurd hc (by decide)
    · omega
    · exact absurd hc (by decide)
    · exact absurd h2 hc.2
  · refine ⟨⟨fun hc => ?_, fun hc => ?_⟩, ⟨fun hc => ?_, fun hc => ?_⟩,
      ⟨fun _ => ⟨h1, h2⟩, fun _ => rfl⟩⟩
    · exact absurd hc (by decide)
    · exact absurd hc h1
    · exact absurd hc (by decide)
    · exact absurd hc h2

/-- C8: the gatekeeper rejects with the unsupported-format error
exactly when the lower-cased extension is none of `.csv`, `.xlsx`,
`.xls`; otherwise with the empty-file error exactly when the byte
length is 0; otherwise with the too-large error exactly when the byte
length exceeds 52428800 (50 MiB); otherwise it accepts. -/
theorem validateFile_policy (name : String) (size : ℕ) :
    (validateFile name size = FileCheck.unsupportedFormat ↔
      fileExtension name ∉ validExtensions) ∧
    (validateFile name size = FileCheck.emptyFile ↔
      fileExtension name ∈ validExtensions ∧ size = 0) ∧
    (validateFile name size = FileCheck.fileTooLarge ↔
      fileExtension name ∈ validExtensions ∧ size ≠ 0 ∧ 52428800 < size) ∧
    (validateFile name size = FileCheck.ok ↔
      fileExtension name ∈ validExtensions ∧ size ≠ 0 ∧ size ≤ 52428800) := by
  unfold validateFile
  dsimp only
  split_ifs with h1 h2 h3
  · simp [h1, h2]
    try omega
  · simp [h1, h2]
    try omega
  · simp [h1, h2]
    try omega
  · simp [h1]

/-- C2: when the first record lacks at least one required column,
validation returns exactly one error, scoped to field `header` at row
1, whose value and message list all missing column names in schema
order; `stats.totalRows` is the number of records, `stats.validRows`
is 0, and no row-level error is produced, however many data rows
exist. -/
theorem header_missing_short_circuit (firstRow : ParsedRecord) (rest : List ParsedRecord)
    (h : ∃ c ∈ REQUIRED_COLUMNS, hasCol firstRow c = false) :
    (validateDataStructure (firstRow :: rest)).errors =
      [⟨"header", 1, String.intercalate ", " (missingColumns firstRow),
        "Kolom wajib tidak ditemukan: " ++ String.intercalate ", " (missingColumns firstRow)⟩] ∧
    (∀ c, c ∈ missingColumns firstRow ↔ c ∈ REQUIRED_COLUMNS ∧ hasCol firstRow c = false) ∧
    (validateDataStructure (firstRow :: rest)).errors.length = 1 ∧
    (validateDataStructure (firstRow :: rest)).stats.totalRows = rest.length + 1 ∧
    (validateDataStructure (firstRow :: rest)).stats.validRows = 0 ∧
    (validateDataStructure (firstRow :: rest)).isValid = false := by
  have hne : missingColumns firstRow ≠ [] := by
    rcases h with ⟨c, hc, hcol⟩
    intro hnil
    have : c ∈ missingColumns firstRow := by
      unfold missingColumns
      exact List.mem_filter.mpr ⟨hc, by simp [hcol]⟩
    rw [hnil] at this
    exact List.not_mem_nil c this
  have hres : validateDataStructure (firstRow :: rest) =
      ⟨false,
       [⟨"header", 1, String.intercalate ", " (missingColumns firstRow),
         "Kolom wajib tidak ditemukan: " ++ String.intercalate ", " (missingColumns firstRow)⟩],
       [], ⟨(firstRow :: rest).length, 0⟩⟩ := by
    simp [validateDataStructure, hne]
  refine ⟨?_, ?_, ?_, ?_, ?_, ?_⟩
  · rw [hres]
  · intro c
    unfold missingColumns
    simp [List.mem_filter]
  · rw [hres]
    rfl
  · rw [hres]
    simp
  · rw [hres]
  · rw [hres]

/-- Witness for C2: a first record lacking `InvoiceDate` and
`Quantity`, followed by two further rows, yields one header error and
zero valid rows. -/
theorem header_missing_short_circuit_witness :
    (validateDataStructure
        [⟨some "A", none, some "JAWA", some "SNACK", none⟩,
         ⟨some "B", some "2024-01-15", some "JAWA", some "SNACK", some "5"⟩,
         ⟨some "C", some "2024-01-15", some "JAWA", some "SNACK", some "5"⟩]).errors.length = 1 ∧
    (validateDataStructure
        [⟨some "A", none, some "JAWA", some "SNACK", none⟩,
         ⟨some "B", some "2024-01-15", some "JAWA", some "SNACK", some "5"⟩,
         ⟨some "C", some "2024-01-15", some "JAWA", some "SNACK", some "5"⟩]).stats.validRows = 0 := by
  have h := header_missing_short_circuit
    ⟨some "A", none, some "JAWA", some "SNACK", none⟩
    [⟨some "B", some "2024-01-15", some "JAWA", some "SNACK", some "5"⟩,
     ⟨some "C", some "2024-01-15", some "JAWA", some "SNACK", some "5"⟩]
    ⟨"InvoiceDate", by decide, by decide⟩
  exact ⟨h.2.2.1, h.2.2.2.2.1⟩

/-- C3: for a record holding all required columns, the Quantity cell is
checked in the exact order not-empty, numeric, strictly positive, whole
number; only the first violated check produces the (single) error.
Consequently "5.5" gives the whole-number error, "-3" and "0" give the
greater-than-zero error, "ten" gives the must-be-numeric error, and
"5" gives no error. -/
theorem quantity_check_order (o : Option String) (n : ℕ) :
    (quantityErrors o n =
        [⟨"Quantity", n, cellOrKosong o, "Jumlah produk tidak boleh kosong"⟩] ↔
      cellEmpty o = true) ∧
    (quantityErrors o n =
        [⟨"Quantity", n, o.getD "", "Quantity harus berupa angka"⟩] ↔
      cellEmpty o = false ∧ jsIsNaN (jsParseFloat (o.getD "")) = true) ∧
    (quantityErrors o n =
        [⟨"Quantity", n, o.getD "", "Quantity harus lebih besar dari 0"⟩] ↔
      cellEmpty o = false ∧ jsIsNaN (jsParseFloat (o.getD "")) = false ∧
        jsLeZero (jsParseFloat (o.getD "")) = true) ∧
    (quantityErrors o n =
        [⟨"Quantity", n, o.getD "", "Quantity harus berupa angka bulat (tidak ada desimal)"⟩] ↔
      cellEmpty o = false ∧ jsIsNaN (jsParseFloat (o.getD "")) = false ∧
        jsLeZero (jsParseFloat (o.getD "")) = false ∧
        jsIsInteger (jsParseFloat (o.getD "")) = false) ∧
    (quantityErrors o n = [] ↔
      cellEmpty o = false ∧ jsIsNaN (jsParseFloat (o.getD "")) = false ∧
        jsLeZero (jsParseFloat (o.getD "")) = false ∧
        jsIsInteger (jsParseFloat (o.getD "")) = true) ∧
    quantityErrors (some "5.5") n =
      [⟨"Quantity", n, "5.5", "Quantity harus berupa angka bulat (tidak ada desimal)"⟩] ∧
    quantityErrors (some "-3") n =
      [⟨"Quantity", n, "-3", "Quantity harus lebih besar dari 0"⟩] ∧
    quantityErrors (some "0") n =
      [⟨"Quantity", n, "0", "Quantity harus lebih besar dari 0"⟩] ∧
    quantityErrors (some "ten") n =
      [⟨"Quantity", n, "ten", "Quantity harus berupa angka"⟩] ∧
    quantityErrors (some "5") n = [] := by
  refine ⟨?_, ?_, ?_, ?_, ?_, ?_, ?_, ?_, ?_, ?_⟩
  all_goals
    first
      | (unfold quantityErrors
         split
         · simp_all
         · dsimp only
           split
           · simp_all
           · split
             · simp_all
             · split <;> simp_all)
      | (unfold quantityErrors
         simp only [(by decide : cellEmpty (some "5.5") = false),
           (by decide : cellEmpty (some "-3") = false),
           (by decide : cellEmpty (some "0") = false),
           (by decide : cellEmpty (some "ten") = false),
           (by decide : cellEmpty (some "5") = false)]
         simp [(by decide : jsIsNaN (jsParseFloat "5.5") = false),
           (by decide : jsIsNaN (jsParseFloat "-3") = false),
           (by decide : jsIsNaN (jsParseFloat "0") = false),
           (by decide : jsIsNaN (jsParseFloat "ten") = true),
           (by decide : jsIsNaN (jsParseFloat "5") = false),
           (by decide : jsLeZero (jsParseFloat "5.5") = false),
           (by decide : jsLeZero (jsParseFloat "-3") = true),
           (by decide : jsLeZero (jsParseFloat "0") = true),
           (by decide : jsLeZero (jsParseFloat "5") = false),
           (by decide : jsIsInteger (jsParseFloat "5.5") = false),
           (by decide : jsIsInteger (jsParseFloat "5") = true)])

/-- C4 (behavior at the claim's inputs): the InvoiceDate checks run in
the order not-empty, regex format, generic date parse.  "2024-02-30"
gives the invalid-date error and "01-15-2024" the wrong-format error,
and "2024-01-15" passes, as the claim says; but "15/01/2024", which
the claim says passes, gives the invalid-date error: it matches the
`DD/MM/YYYY` regex alternative, yet the host `new Date` legacy parser
reads `15` as a month and yields an Invalid Date. -/
theorem invoiceDate_check_behavior (n : ℕ) :
    invoiceDateErrors (some "2024-02-30") n =
      [⟨"InvoiceDate", n, "2024-02-30", "Tanggal tidak valid (periksa hari/bulan/tahun)"⟩] ∧
    invoiceDateErrors (some "01-15-2024") n =
      [⟨"InvoiceDate", n, "01-15-2024",
        "Format tanggal salah. Gunakan YYYY-MM-DD atau DD/MM/YYYY"⟩] ∧
    invoiceDateErrors (some "2024-01-15") n = [] ∧
    dateRegexTest "15/01/2024" = true ∧
    jsDateValid "15/01/2024" = false ∧
    invoiceDateErrors (some "15/01/2024") n =
      [⟨"InvoiceDate", n, "15/01/2024", "Tanggal tidak valid (periksa hari/bulan/tahun)"⟩] := by
  refine ⟨?_, ?_, ?_, by decide, by decide, ?_⟩ <;>
    (unfold invoiceDateErrors
     simp [(by decide : cellEmpty (some "2024-02-30") = false),
       (by decide : cellEmpty (some "01-15-2024") = false),
       (by decide : cellEmpty (some "2024-01-15") = false),
       (by decide : cellEmpty (some "15/01/2024") = false),
       (by decide : dateRegexTest (jsTrim "2024-02-30") = true),
       (by decide : dateRegexTest (jsTrim "01-15-2024") = false),
       (by decide : dateRegexTest (jsTrim "2024-01-15") = true),
       (by decide : dateRegexTest (jsTrim "15/01/2024") = true),
       (by decide : jsDateValid "2024-02-30" = false),
       (by decide : jsDateValid "2024-01-15" = true),
       (by decide : jsDateValid "15/01/2024" = false)])

/-- C10: the numeric check of Quantity runs `parseFloat`, which parses
the longest numeric prefix and ignores trailing junk: "5abc" parses to
the value 5 (an integer greater than zero), so a record whose Quantity
is "5abc" produces no Quantity error and, with the other fields valid,
no error at all; in general any cell whose numeric prefix is a
positive whole number passes all Quantity checks. -/
theorem quantity_parses_leading_number (n : ℕ) :
    jsParseFloat "5abc" = JsNumber.num ⟨5, 0⟩ ∧
    quantityErrors (some "5abc") n = [] ∧
    rowErrors ⟨some "INV-1", some "2024-01-15", some "JAWA", some "SNACK", some "5abc"⟩ n = [] ∧
    (∀ s : String, cellEmpty (some s) = false →
      jsIsNaN (jsParseFloat s) = false →
      jsLeZero (jsParseFloat s) = false →
      jsIsInteger (jsParseFloat s) = true →
      quantityErrors (some s) n = []) := by
  refine ⟨by decide, ?_, ?_, ?_⟩
  · unfold quantityErrors
    simp [(by decide : cellEmpty (some "5abc") = false),
      (by decide : jsIsNaN (jsParseFloat "5abc") = false),
      (by decide : jsLeZero (jsParseFloat "5abc") = false),
      (by decide : jsIsInteger (jsParseFloat "5abc") = true)]
  · unfold rowErrors invoiceNoErrors invoiceDateErrors pulauErrors productCategoryErrors
      quantityErrors
    simp [(by decide : cellEmpty (some "INV-1") = false),
      (by decide : cellEmpty (some "2024-01-15") = false),
      (by decide : cellEmpty (some "JAWA") = false),
      (by decide : cellEmpty (some "SNACK") = false),
      (by decide : cellEmpty (some "5abc") = false),
      (by decide : dateRegexTest (jsTrim "2024-01-15") = true),
      (by decide : jsDateValid "2024-01-15" = true),
      (by decide : jsIsNaN (jsParseFloat "5abc") = false),
      (by decide : jsLeZero (jsParseFloat "5abc") = false),
      (by decide : jsIsInteger (jsParseFloat "5abc") = true)]
  · intro s h1 h2 h3 h4
    unfold quantityErrors
    simp [h1, h2, h3, h4]

/-- Witness for C10's general clause: "7xy" has numeric prefix 7, a
positive whole number, so its Quantity cell passes. -/
theorem quantity_parses_leading_number_witness :
    quantityErrors (some "7xy") 3 = [] :=
  (quantity_parses_leading_number 3).2.2.2 "7xy" (by decide) (by decide) (by decide) (by decide)

/-- C1 (behavior at the claim's scenario): `validateDataStructure`
declares a `warnings` array but never appends to it, so every result
carries `warnings = []`; in particular a table of 30 valid rows all
sharing one PULAU value comes back with `isValid = true`,
`errors = []`, `stats = {30, 30}` and an empty warnings list — neither
the minimum-volume warning (totalRows < 100) nor the region-count
warning (1 distinct PULAU < 2) is emitted. -/
theorem warnings_never_emitted :
    (∀ data : List ParsedRecord, (validateDataStructure data).warnings = []) ∧
    validateDataStructure
        (List.replicate 30 ⟨some "INV1", some "2024-01-15", some "JAWA", some "SNACK", some "5"⟩) =
      ⟨true, [], [], ⟨30, 30⟩⟩ := by
  constructor
  · intro data
    unfold validateDataStructure
    match data with
    | [] => rfl
    | firstRow :: rest =>
        dsimp only
        split <;> rfl
  · decide

/-- C5: every result satisfies `isValid = true` exactly when `errors`
is empty, `validRows ≤ totalRows`, and — on the row-scanning path,
i.e. a nonempty table with no missing header column — `validRows` is
the number of data rows whose validation produced zero field errors. -/
theorem validation_result_invariants (data : List ParsedRecord) :
    ((validateDataStructure data).isValid = true ↔
      (validateDataStructure data).errors = []) ∧
    (validateDataStructure data).stats.validRows ≤
      (validateDataStructure data).stats.totalRows ∧
    (∀ firstRow rest, data = firstRow :: rest → missingColumns firstRow = [] →
      (validateDataStructure data).stats.validRows =
        data.enum.countP (fun p => decide (rowErrors p.2 (p.1 + 2) = []))) := by
  match data with
  | [] =>
      refine ⟨by simp [validateDataStructure], by simp [validateDataStructure], ?_⟩
      intro firstRow rest hd
      exact absurd hd (by simp)
  | firstRow :: rest =>
      by_cases hmc : missingColumns firstRow = []
      · have hres : validateDataStructure (firstRow :: rest) =
            ⟨(scanRows (firstRow :: rest) 0).1.length == 0,
             (scanRows (firstRow :: rest) 0).1, [],
             ⟨(firstRow :: rest).length, (scanRows (firstRow :: rest) 0).2⟩⟩ := by
          simp [validateDataStructure, hmc]
        refine ⟨?_, ?_, ?_⟩
        · rw [hres]
          simp [List.length_eq_zero]
        · rw [hres]
          exact scanRows_snd_le (firstRow :: rest) 0
        · intro fr rs hd _
          rw [hres]
          dsimp only
          rw [scanRows_snd]
          rfl
      · have hres : (validateDataStructure (firstRow :: rest)).errors.length = 1 ∧
            (validateDataStructure (firstRow :: rest)).isValid = false ∧
            (validateDataStructure (firstRow :: rest)).stats.validRows = 0 := by
          simp [validateDataStructure, hmc]
        refine ⟨?_, ?_, ?_⟩
        · rw [hres.2.1]
          constructor
          · intro hc
            exact absurd hc (by decide)
          · intro hc
            have := hres.1
            rw [hc] at this
            exact absurd this (by decide)
        · rw [hres.2.2]
          exact Nat.zero_le _
        · intro fr rs hd hmc2
          injection hd with h1 h2
          rw [← h1] at hmc2
          exact absurd hmc2 hmc

/-- Witness for C5's row-scanning clause at a concrete one-row table. -/
theorem validation_result_invariants_witness :
    (validateDataStructure
        [⟨some "INV1", some "2024-01-15", some "JAWA", some "SNACK", some "5"⟩]).stats.validRows =
      ([(⟨some "INV1", some "2024-01-15", some "JAWA", some "SNACK", some "5"⟩ : ParsedRecord)]).enum.countP
        (fun p => decide (rowErrors p.2 (p.1 + 2) = [])) :=
  (validation_result_invariants
      [⟨some "INV1", some "2024-01-15", some "JAWA", some "SNACK", some "5"⟩]).2.2
    ⟨some "INV1", some "2024-01-15", some "JAWA", some "SNACK", some "5"⟩ [] rfl (by decide)

/-- C6: on the row-scanning path the aggregate error list is exactly
the concatenation, in file order, of each row's error list, and within
one row errors carry strictly increasing field positions in the
declaration order InvoiceNo, InvoiceDate, PULAU, PRODUCT_CATEGORY,
Quantity; a row with both an invalid date and a non-numeric quantity
therefore lists the InvoiceDate error before the Quantity error. -/
theorem errors_ordered (firstRow : ParsedRecord) (rest : List ParsedRecord)
    (h : missingColumns firstRow = []) :
    (validateDataStructure (firstRow :: rest)).errors =
      (((firstRow :: rest).enum).map (fun p => rowErrors p.2 (p.1 + 2))).flatten ∧
    (∀ (r : ParsedRecord) (n : ℕ),
      (rowErrors r n).Pairwise (fun e1 e2 => fieldIdx e1.field < fieldIdx e2.field)) ∧
    rowErrors ⟨some "INV-1", some "01-15-2024", some "JAWA", some "SNACK", some "ten"⟩ 2 =
      [⟨"InvoiceDate", 2, "01-15-2024",
        "Format tanggal salah. Gunakan YYYY-MM-DD atau DD/MM/YYYY"⟩,
       ⟨"Quantity", 2, "ten", "Quantity harus berupa angka"⟩] := by
  refine ⟨?_, ?_, by decide⟩
  · have hres : (validateDataStructure (firstRow :: rest)).errors =
        (scanRows (firstRow :: rest) 0).1 := by
      simp [validateDataStructure, h]
    rw [hres, scanRows_fst]
    rfl
  · intro r n
    unfold rowErrors
    simp only [List.append_assoc]
    have hno := fun e he => (mem_invoiceNoErrors (o := r.InvoiceNo) (n := n) (e := e) he).1
    have hdate := fun e he => mem_invoiceDateErrors (o := r.InvoiceDate) (n := n) (e := e) he
    have hpul := fun e he => mem_pulauErrors (o := r.PULAU) (n := n) (e := e) he
    have hcat := fun e he => mem_productCategoryErrors (o := r.PRODUCT_CATEGORY) (n := n) (e := e) he
    have hqty := fun e he => mem_quantityErrors (o := r.Quantity) (n := n) (e := e) he
    rw [List.pairwise_append]
    refine ⟨?_, ?_, ?_⟩
    · unfold invoiceNoErrors
      split <;> simp
    · rw [List.pairwise_append]
      refine ⟨?_, ?_, ?_⟩
      · unfold invoiceDateErrors
        split
        · simp
        · dsimp only
          split
          · simp
          · split <;> simp
      · rw [List.pairwise_append]
        refine ⟨?_, ?_, ?_⟩
        · unfold pulauErrors
          split <;> simp
        · rw [List.pairwise_append]
          refine ⟨?_, ?_, ?_⟩
          · unfold productCategoryErrors
            split <;> simp
          · unfold quantityErrors
            split
            · simp
            · dsimp only
              split
              · simp
              · split
                · simp
                · split <;> simp
          · intro a ha b hb
            rw [hcat a ha, hqty b hb]
            decide
        · intro a ha b hb
          rw [hpul a ha]
          rcases List.mem_append.mp hb with hb | hb
          · rw [hcat b hb]
            decide
          · rw [hqty b hb]
            decide
      · intro a ha b hb
        rw [hdate a ha]
        rcases List.mem_append.mp hb with hb | hb
        · rw [hpul b hb]
          decide
        · rcases List.mem_append.mp hb with hb | hb
          · rw [hcat b hb]
            decide
          · rw [hqty b hb]
            decide
    · intro a ha b hb
      rw [hno a ha]
      rcases List.mem_append.mp hb with hb | hb
      · rw [hdate b hb]
        decide
      · rcases List.mem_append.mp hb with hb | hb
        · rw [hpul b hb]
          decide
        · rcases List.mem_append.mp hb with hb | hb
          · rw [hcat b hb]
            decide
          · rw [hqty b hb]
            decide

/-- Witness for C6 at a concrete one-row table whose row has both an
invalid date and a non-numeric quantity. -/
theorem errors_ordered_witness :
    (validateDataStructure
        [⟨some "INV-1", some "01-15-2024", some "JAWA", some "SNACK", some "ten"⟩]).errors =
      ((([(⟨some "INV-1", some "01-15-2024", some "JAWA", some "SNACK", some "ten"⟩ : ParsedRecord)]).enum).map
        (fun p => rowErrors p.2 (p.1 + 2))).flatten :=
  (errors_ordered ⟨some "INV-1", some "01-15-2024", some "JAWA", some "SNACK", some "ten"⟩ []
    (by decide)).1

/-- C9: the only InvoiceNo rule is the emptiness check — every error
on field InvoiceNo carries the not-empty reason, a non-empty InvoiceNo
cell yields no InvoiceNo error at all, and two rows sharing the same
non-empty InvoiceNo validate cleanly (both count as valid rows). -/
theorem invoiceNo_duplicates_allowed :
    (∀ (data : List ParsedRecord) (e : ValidationError),
        e ∈ (validateDataStructure data).errors → e.field = "InvoiceNo" →
        e.reason = "Nomor faktur tidak boleh kosong") ∧
    (∀ (o : Option String) (n : ℕ), cellEmpty o = false → invoiceNoErrors o n = []) ∧
    validateDataStructure
        [⟨some "INV-7", some "2024-01-15", some "JAWA", some "SNACK", some "5"⟩,
         ⟨some "INV-7", some "2024-01-16", some "JAWA", some "MINUMAN", some "3"⟩] =
      ⟨true, [], [], ⟨2, 2⟩⟩ := by
  refine ⟨?_, ?_, by decide⟩
  · intro data e he hf
    match data with
    | [] =>
        simp [validateDataStructure] at he
        rw [he] at hf
        exact absurd hf (by decide)
    | firstRow :: rest =>
        by_cases hmc : missingColumns firstRow = []
        · have hres : (validateDataStructure (firstRow :: rest)).errors =
              (scanRows (firstRow :: rest) 0).1 := by
            simp [validateDataStructure, hmc]
          rw [hres, scanRows_fst] at he
          rcases List.mem_flatten.mp he with ⟨L, hL, heL⟩
          rcases List.mem_map.mp hL with ⟨p, _, hpL⟩
          rw [← hpL] at heL
          unfold rowErrors at heL
          simp only [List.append_assoc, List.mem_append] at heL
          rcases heL with h1 | h2 | h3 | h4 | h5
          · exact (mem_invoiceNoErrors h1).2
          · rw [mem_invoiceDateErrors h2] at hf
            exact absurd hf (by decide)
          · rw [mem_pulauErrors h3] at hf
            exact absurd hf (by decide)
          · rw [mem_productCategoryErrors h4] at hf
            exact absurd hf (by decide)
          · rw [mem_quantityErrors h5] at hf
            exact absurd hf (by decide)
        · have hres : (validateDataStructure (firstRow :: rest)).errors =
              [⟨"header", 1, String.intercalate ", " (missingColumns firstRow),
                "Kolom wajib tidak ditemukan: " ++
                  String.intercalate ", " (missingColumns firstRow)⟩] := by
            simp [validateDataStructure, hmc]
          rw [hres] at he
          simp at he
          rw [he] at hf
          simp at hf
  · intro o n hne
    unfold invoiceNoErrors
    simp [hne]

/-- Witness for C9: a row with an empty InvoiceNo produces exactly the
not-empty InvoiceNo error, and a concrete non-empty cell passes. -/
theorem invoiceNo_duplicates_allowed_witness :
    (⟨"InvoiceNo", 2, "(kosong)", "Nomor faktur tidak boleh kosong"⟩ : ValidationError).reason =
      "Nomor faktur tidak boleh kosong" ∧
    invoiceNoErrors (some "INV-9") 4 = [] :=
  ⟨invoiceNo_duplicates_allowed.1
      [⟨some "", some "2024-01-15", some "JAWA", some "SNACK", some "5"⟩]
      ⟨"InvoiceNo", 2, "(kosong)", "Nomor faktur tidak boleh kosong"⟩
      (by decide) (by decide),
   invoiceNo_duplicates_allowed.2.1 (some "INV-9") 4 (by decide)⟩

end DataNiaga
